import Mathlib

/-!
Verification of the customer-identity resolution, invoice-creation and
billing-event logic of the after-school mailer servers.

The embedding follows the JavaScript sources:
  * `src/unnamed/part_006` — the multi-account server: `POST /create-invoice`
    (find-or-create of the Stripe customer, draft invoice, line item,
    pre-finalization check, finalize, cleanup on failure),
    `POST /map-stripe-customer`, `GET /get-student-invoices/...`,
    `GET /get-student-subscriptions/...`;
  * `src/server.js` — the single-account variant of the same routes;
  * `src/unnamed/part_003` — `POST /stripe/webhook/:orgId` (signature
    verification and the merge-write of invoice status via the reverse index).

Vendor SDK calls (Stripe, Firestore) are modeled by explicit state passing:
the Stripe side of one billing account is a list of customer records plus a
fresh-id counter, Firestore map fields are modeled by their leaves keyed by
field path (so the dotted-key behavior of update() is representable), and
every provider
call a handler issues is recorded in an ordered call list.
-/

namespace ASM

/-! ## Data model

`Student` mirrors the Firestore student document: an optional `name` field and
the `stripeInfo` map from billing-account identifier to Stripe customer id
(`stripeInfo.halle_dance = "cus_..."` in `part_006`).
-/

abbrev AccountId := String
abbrev CustomerId := String
abbrev StudentId := String

/-- A Stripe customer record as the servers read and create it: an id, the
display name, the billing email, and the traceability metadata written by
`stripe.customers.create` in `POST /create-invoice`. -/
structure StripeCustomer where
  id : CustomerId
  name : Option String
  email : Option String
  metaStudentId : Option String
  metaParentId : Option String
  metaOrgId : Option String
deriving DecidableEq

/-- Split a string on dots, as the Firestore Admin SDK splits the string
keys of `update()` into field-path segments. -/
def splitDotsAux : List Char → List Char → List String
  | [], acc => [String.mk acc.reverse]
  | c :: cs, acc =>
    if c = '.' then String.mk acc.reverse :: splitDotsAux cs []
    else splitDotsAux cs (c :: acc)

/-- `splitDots "state48arts.org" = ["state48arts", "org"]`,
`splitDots "halle_dance" = ["halle_dance"]`. -/
def splitDots (s : String) : List String :=
  splitDotsAux s.data []

/-- The leaves of a Firestore map field, keyed by field path (a list of
segments). Writing a leaf at path `p` creates the intermediate maps and
destroys any leaf whose path conflicts with `p` (a leaf at a prefix of `p`
is replaced by a map; leaves under `p` are replaced by the new value);
every path unrelated to `p` is untouched. -/
def fsSetLeaf (m : List String → Option String) (p : List String) (v : String) :
    List String → Option String :=
  fun q =>
    if q = p then some v
    else if p.isPrefixOf q || q.isPrefixOf p then none
    else m q

/-- The Firestore student document: `name`, and the `stripeInfo` map field;
`stripeInfo` holds the leaf values of that map keyed by field path relative
to `stripeInfo` (a flat entry `a` is the leaf at path `[a]`). -/
structure Student where
  name : Option String
  stripeInfo : List String → Option CustomerId

/-- The read `studentData.stripeInfo?.[accountIdentifier]`: a lookup of the
literal, flat key — path `[a]` — never of a nested path. -/
def readBillingMapping (st : Student) (a : AccountId) : Option CustomerId :=
  st.stripeInfo [a]

/-- The write `studentRef.update({ ["stripeInfo." + a]: cid })` of
`POST /create-invoice` and `POST /map-stripe-customer` in `part_006`.
Firestore `update()` splits the dotted string key into a field path, so the
value lands at path `splitDots a` inside `stripeInfo`: at the flat key `[a]`
when `a` has no dot (`halle_dance`), but at a nested path for a dotted
account identifier (`state48arts.org` → `stripeInfo → state48arts → org`). -/
def upsertBillingMapping (st : Student) (a : AccountId) (cid : CustomerId) : Student :=
  { st with stripeInfo := fsSetLeaf st.stripeInfo (splitDots a) cid }

/-- The Stripe-side state of one billing account: the customer records that
exist under the credential of that account, and a counter from which the model
draws the ids Stripe would assign to newly created customers. -/
structure ProviderAccount where
  customers : List StripeCustomer
  nextCustomerNum : Nat

/-- Calls issued to the billing provider, recorded in order. -/
inductive ProviderCall where
  | listCustomers (accountId : AccountId) (email : String)
  | createCustomer (accountId : AccountId)
  | retrieveCustomer (accountId : AccountId) (customerId : CustomerId)
  | listInvoices (accountId : AccountId) (customerId : CustomerId)
  | listSubscriptions (accountId : AccountId) (customerId : CustomerId)
deriving DecidableEq

/-- Combined system state: the Firestore student documents of the
organization, the Stripe state of each billing account, and a log of the
customers this system has created, as `(studentId, accountId, customerId)`
events (used to state the at-most-one-customer invariant). -/
structure SysState where
  students : StudentId → Option Student
  provider : AccountId → ProviderAccount
  createdLog : List (StudentId × AccountId × CustomerId)

/-- Replace one student document in the store. -/
def setStudent (σ : SysState) (sid : StudentId) (st : Student) : SysState :=
  { σ with students := fun x => if x = sid then some st else σ.students x }

/-- The two configured billing accounts of `part_006`. -/
def ACCOUNT_ID_HALLE : String := "halle_dance"

/-- The second configured billing account of `part_006`. -/
def ACCOUNT_ID_STATE48 : String := "state48arts.org"

/-- The `accountIdentifier` validation done at the top of every multi-account
route: `accountIdentifier !== ACCOUNT_ID_HALLE && accountIdentifier !== ACCOUNT_ID_STATE48`
is rejected with HTTP 400. -/
def isKnownAccount (a : AccountId) : Bool :=
  a == ACCOUNT_ID_HALLE || a == ACCOUNT_ID_STATE48

/-- The validated inputs of one `POST /create-invoice` request that matter to
customer resolution: the student and parent document ids, the billing email of the parent (read from the parent document), the request's `studentName`
fallback, the target billing account, and the organization id of the server. -/
structure ResolveRequest where
  studentId : StudentId
  parentId : String
  parentEmail : String
  reqStudentName : String
  accountId : AccountId
  orgId : String

/-- Number of customers this system has created for the pair `(s, a)`. -/
def createdFor (σ : SysState) (s : StudentId) (a : AccountId) : Nat :=
  (σ.createdLog.filter (fun e => e.1 == s && e.2.1 == a)).length

/-- The provider customer id currently stored for `(s, a)`: the `stripeInfo[a]` entry of the student, `none` when the student or the entry is absent. -/
def storedCustomerId (σ : SysState) (s : StudentId) (a : AccountId) : Option CustomerId :=
  match σ.students s with
  | none => none
  | some st => readBillingMapping st a

/-- The leaf stored at field path `p` of the stripeInfo map of student `s`
(diagnostic view onto where a dotted-key write actually landed). -/
def storedAtPath (σ : SysState) (s : StudentId) (p : List String) : Option CustomerId :=
  match σ.students s with
  | none => none
  | some st => st.stripeInfo p

/-- `customerName = studentData.name || studentName` of `POST /create-invoice`. -/
def resolvedName (st : Student) (r : ResolveRequest) : String :=
  st.name.getD r.reqStudentName

/-- The bounded customer query of the slow path:
`customers.list({ email: billingEmail, limit: 10 })` — those customers of the account whose email equals the parent billing email, capped at 10. -/
def listedCandidates (σ : SysState) (r : ResolveRequest) : List StripeCustomer :=
  ((σ.provider r.accountId).customers.filter (fun c => c.email == some r.parentEmail)).take 10

/-- The id the model assigns to the next customer created under account `a`
(Stripe assigns these ids in reality). -/
def freshCustomerId (σ : SysState) (a : AccountId) : CustomerId :=
  "cus_" ++ Nat.repr (σ.provider a).nextCustomerNum

/-- The customer record built by `stripeForAccount.customers.create({...})` in
`POST /create-invoice`: the display name of the student, the parent billing email,
and the student / parent / organization ids as metadata. -/
def createdCustomer (σ : SysState) (r : ResolveRequest) (st : Student) : StripeCustomer :=
  { id := freshCustomerId σ r.accountId
    name := some (resolvedName st r)
    email := some r.parentEmail
    metaStudentId := some r.studentId
    metaParentId := some r.parentId
    metaOrgId := some r.orgId }

/-- The state after the create branch of the slow path: the new customer is
appended to the account, the creation is logged, and the id is persisted into
the `stripeInfo` map of the student. -/
def createCustomerState (σ : SysState) (r : ResolveRequest) (st : Student) : SysState :=
  { students := fun x =>
      if x = r.studentId then
        some (upsertBillingMapping st r.accountId (freshCustomerId σ r.accountId))
      else σ.students x
    provider := fun b =>
      if b = r.accountId then
        { customers := (σ.provider r.accountId).customers ++ [createdCustomer σ r st]
          nextCustomerNum := (σ.provider r.accountId).nextCustomerNum + 1 }
      else σ.provider b
    createdLog := σ.createdLog ++ [(r.studentId, r.accountId, freshCustomerId σ r.accountId)] }

/-! ## Identity resolver

`resolveCustomer` embeds the "Find or Create Stripe Customer" section of
`POST /create-invoice` (`part_006` lines 151–190, `server.js` lines 204–235):

  1. validate the account identifier;
  2. fetch the student document (404-like error when absent);
  3. fast path: return `studentData.stripeInfo?.[accountIdentifier]` when set;
  4. otherwise `customers.list({ email: billingEmail, limit: 10 })`, then
     `.find(c => c.name === customerName)` with
     `customerName = studentData.name || studentName`;
  5. on no match, `customers.create({ name, email, metadata })`;
  6. persist the id with the field-path update before returning.

The parent document fetch of the route is represented by `parentEmail`
arriving already read; the parent record is a read-only input. -/
def resolveCustomer (σ : SysState) (r : ResolveRequest) :
    Except String CustomerId × SysState × List ProviderCall :=
  if ¬ isKnownAccount r.accountId then
    (.error ("Invalid business account specified."), σ, [])
  else
    match σ.students r.studentId with
    | none => (.error ("Student " ++ r.studentId ++ " not found."), σ, [])
    | some st =>
      match readBillingMapping st r.accountId with
      | some cid => (.ok cid, σ, [])
      | none =>
        match (listedCandidates σ r).find? (fun c => c.name == some (resolvedName st r)) with
        | some c =>
          (.ok c.id, setStudent σ r.studentId (upsertBillingMapping st r.accountId c.id),
            [.listCustomers r.accountId r.parentEmail])
        | none =>
          (.ok (freshCustomerId σ r.accountId), createCustomerState σ r st,
            [.listCustomers r.accountId r.parentEmail, .createCustomer r.accountId])

/-- `POST /map-stripe-customer` (`part_006` lines 449–493): validate the
account and the `cus_` id shape, verify the customer exists under the
specified account (`customers.retrieve`), then merge the id into the
`stripeInfo` map of the student with the field-path update. It never creates a
provider customer. -/
def mapStripeCustomer (σ : SysState) (sid : StudentId) (cid : CustomerId) (a : AccountId) :
    Except String Unit × SysState × List ProviderCall :=
  if ¬ isKnownAccount a then
    (.error ("Invalid business account specified."), σ, [])
  else if ¬ cid.startsWith ("cus_") then
    (.error ("Valid Student ID and Stripe Customer ID (cus_...) required."), σ, [])
  else if (σ.provider a).customers.any (fun c => c.id == cid) then
    match σ.students sid with
    | some st =>
      (.ok (), setStudent σ sid (upsertBillingMapping st a cid), [.retrieveCustomer a cid])
    | none => (.error ("Student not found."), σ, [.retrieveCustomer a cid])
  else
    (.error ("Stripe Customer ID not found."), σ, [.retrieveCustomer a cid])

/-- The operations that read or write the student→customer mapping. A
`createInvoiceOp` touches customers exactly as `resolveCustomerOp` does: the
later invoice steps of the route (draft, line item, finalize) create invoice
objects, never customers, so their effect on this state is the resolution
effect. -/
inductive Op where
  | resolveCustomerOp (r : ResolveRequest)
  | createInvoiceOp (r : ResolveRequest) (amountInCents : Int) (description : String)
  | mapCustomerOp (studentId : StudentId) (customerId : CustomerId) (accountId : AccountId)

/-- One operation, run to completion against the state. -/
def stepOp (σ : SysState) : Op → SysState
  | .resolveCustomerOp r => (resolveCustomer σ r).2.1
  | .createInvoiceOp r _ _ => (resolveCustomer σ r).2.1
  | .mapCustomerOp sid cid a => (mapStripeCustomer σ sid cid a).2.1

/-- Run a sequence of operations. -/
def runOps (σ : SysState) (ops : List Op) : SysState :=
  ops.foldl stepOp σ

/-! ## Concrete demonstration data, used by the witness theorems. -/

/-- A student already mapped on the `halle_dance` account. -/
def demoStudent : Student :=
  { name := some "Avery Quinn"
    stripeInfo := fun p => if p = [ACCOUNT_ID_HALLE] then some "cus_55" else none }

/-- A student with no billing mapping at all. -/
def demoStudentUnmapped : Student :=
  { name := some "Avery Quinn", stripeInfo := fun _ => none }

/-- An empty provider account whose next created customer gets number 7. -/
def demoAccount : ProviderAccount :=
  { customers := [], nextCustomerNum := 7 }

/-- Store holding `demoStudent` under id `stu1`; empty provider accounts. -/
def demoState : SysState :=
  { students := fun x => if x = "stu1" then some demoStudent else none
    provider := fun _ => demoAccount
    createdLog := [] }

/-- Store holding `demoStudentUnmapped` under id `stu1`. -/
def demoStateUnmapped : SysState :=
  { students := fun x => if x = "stu1" then some demoStudentUnmapped else none
    provider := fun _ => demoAccount
    createdLog := [] }

/-- A `POST /create-invoice` request for `stu1` on the `halle_dance` account. -/
def demoRequest : ResolveRequest :=
  { studentId := "stu1"
    parentId := "par1"
    parentEmail := "parent@example.com"
    reqStudentName := "Avery Quinn"
    accountId := ACCOUNT_ID_HALLE
    orgId := "State-48-Dance" }

/-- The same request against the `state48arts.org` account. -/
def demoRequestS48 : ResolveRequest :=
  { demoRequest with accountId := ACCOUNT_ID_STATE48 }

/-- A later request for the same student and account, arriving with the
other parent of the student as billing contact. -/
def demoRequestS48b : ResolveRequest :=
  { demoRequestS48 with parentId := "par2", parentEmail := "parent2@example.com" }

/-! ## Invoice workflow

`createInvoiceWorkflow` embeds steps 3–6 and the catch block of
`POST /create-invoice` (`server.js` lines 237–299, `part_006` lines 192–248):
create a draft invoice with `auto_advance: false`, create the invoice item
with `invoice: draftInvoice.id`, re-retrieve the draft and check its total,
finalize with the idempotency key, and on any thrown error delete whatever
of the item and the draft was created, each delete in its own try/catch so a
cleanup failure is only logged. The Stripe responses of one request are
modeled by a `StripeBehavior`: the outcome each provider call would have,
plus `Date.now()` at the finalize call. -/

/-- The draft invoice as re-retrieved by the pre-finalization check. -/
structure RetrievedInvoice where
  status : String
  total : Int
deriving DecidableEq

/-- The finalized invoice returned by `invoices.finalizeInvoice`. -/
structure FinalizedInvoice where
  id : String
  status : String
  hostedInvoiceUrl : Option String
deriving DecidableEq

/-- Outcomes of the provider calls of one `POST /create-invoice` request. -/
structure StripeBehavior where
  createDraftInvoice : Except String String
  createInvoiceItem : Except String String
  retrieveInvoice : Except String RetrievedInvoice
  finalizeInvoice : Except String FinalizedInvoice
  delItemOk : Bool
  delDraftOk : Bool
  nowMs : Nat

/-- The distinct thrown errors of the route, named after the spec taxonomy;
`attachmentFailed` is the throw of
`"Invoice item did not attach. Aborting finalization."`. -/
inductive WorkflowErr where
  | draftFailed (msg : String)
  | itemFailed (msg : String)
  | retrieveFailed (msg : String)
  | attachmentFailed
  | finalizeFailed (msg : String)
deriving DecidableEq

/-- The success payload of the route:
`{ invoiceId, invoiceStatus, invoiceUrl }`. -/
structure InvoiceResponse where
  invoiceId : String
  invoiceStatus : String
  invoiceUrl : Option String
deriving DecidableEq

/-- The Stripe calls the route can issue, in order of issue. -/
inductive StripeCall where
  | createDraft
  | createItem (draftId : String)
  | retrieve (draftId : String)
  | finalize (draftId : String) (idemKey : String)
  | delItem (itemId : String)
  | delDraft (draftId : String)
deriving DecidableEq

/-- The idempotency key of the finalize call:
`` `finalize-${draftInvoice.id}-${Date.now()}` `` — the draft id and the
current time in milliseconds. -/
def idempotencyKey (draftId : String) (nowMs : Nat) : String :=
  "finalize-" ++ draftId ++ "-" ++ Nat.repr nowMs

/-- Result of one request: the HTTP-level response, every Stripe call
issued, and the logged (never rethrown) cleanup failures. -/
structure WorkflowResult where
  response : Except WorkflowErr InvoiceResponse
  calls : List StripeCall
  cleanupFailures : List String

/-- The deletes of the catch block: the item if one was created, then the draft
if one was created. -/
def cleanupCalls (itemId : Option String) (draftId : Option String) : List StripeCall :=
  (match itemId with
   | some i => [StripeCall.delItem i]
   | none => []) ++
  (match draftId with
   | some d => [StripeCall.delDraft d]
   | none => [])

/-- The `console.error` lines of the catch-inside-catch cleanup handlers. -/
def cleanupFailuresOf (b : StripeBehavior) (itemId draftId : Option String) : List String :=
  (match itemId with
   | some i => if b.delItemOk then [] else ["Failed delete item " ++ i]
   | none => []) ++
  (match draftId with
   | some d => if b.delDraftOk then [] else ["Failed delete draft " ++ d]
   | none => [])

/-- Steps 3–6 with the catch block of `POST /create-invoice`. -/
def createInvoiceWorkflow (b : StripeBehavior) (amountInCents : Int) : WorkflowResult :=
  match b.createDraftInvoice with
  | .error msg =>
    { response := .error (.draftFailed msg), calls := [.createDraft], cleanupFailures := [] }
  | .ok draftId =>
    match b.createInvoiceItem with
    | .error msg =>
      { response := .error (.itemFailed msg)
        calls := [.createDraft, .createItem draftId] ++ cleanupCalls none (some draftId)
        cleanupFailures := cleanupFailuresOf b none (some draftId) }
    | .ok itemId =>
      match b.retrieveInvoice with
      | .error msg =>
        { response := .error (.retrieveFailed msg)
          calls := [.createDraft, .createItem draftId, .retrieve draftId] ++
            cleanupCalls (some itemId) (some draftId)
          cleanupFailures := cleanupFailuresOf b (some itemId) (some draftId) }
      | .ok ret =>
        if ret.total = 0 ∧ amountInCents > 0 then
          { response := .error .attachmentFailed
            calls := [.createDraft, .createItem draftId, .retrieve draftId] ++
              cleanupCalls (some itemId) (some draftId)
            cleanupFailures := cleanupFailuresOf b (some itemId) (some draftId) }
        else
          match b.finalizeInvoice with
          | .error msg =>
            { response := .error (.finalizeFailed msg)
              calls := [.createDraft, .createItem draftId, .retrieve draftId,
                  .finalize draftId (idempotencyKey draftId b.nowMs)] ++
                cleanupCalls (some itemId) (some draftId)
              cleanupFailures := cleanupFailuresOf b (some itemId) (some draftId) }
          | .ok fin =>
            { response := .ok
                { invoiceId := fin.id, invoiceStatus := fin.status
                  invoiceUrl := fin.hostedInvoiceUrl }
              calls := [.createDraft, .createItem draftId, .retrieve draftId,
                .finalize draftId (idempotencyKey draftId b.nowMs)]
              cleanupFailures := [] }

/-- Same request, different cleanup (delete) outcomes. -/
def setCleanupOutcome (b : StripeBehavior) (iOk dOk : Bool) : StripeBehavior :=
  { b with delItemOk := iOk, delDraftOk := dOk }

/-- Behavior of a fully successful request. -/
def demoBehaviorOk : StripeBehavior :=
  { createDraftInvoice := .ok "in_1"
    createInvoiceItem := .ok "ii_1"
    retrieveInvoice := .ok { status := "draft", total := 2500 }
    finalizeInvoice := .ok
      { id := "in_1", status := "open", hostedInvoiceUrl := some "https://pay.example/in_1" }
    delItemOk := true
    delDraftOk := true
    nowMs := 1000 }

/-- The same request retried one millisecond later. -/
def demoBehaviorRetry : StripeBehavior :=
  { demoBehaviorOk with nowMs := 1001 }

/-- Behavior in which the finalize call fails. -/
def demoBehaviorFinalizeFail : StripeBehavior :=
  { demoBehaviorOk with finalizeInvoice := .error "finalize boom" }

/-- Decimal value of a digit string, used to invert `Nat.toDigits`. -/
def digitsVal (l : List Char) : Nat :=
  l.foldl (fun a c => 10 * a + (c.toNat - 48)) 0

/-! ## Webhook handler

`stripeWebhook` embeds `POST /stripe/webhook/:orgId` of `part_003`: look up
the per-org webhook secret and Stripe key, verify the `stripe-signature`
header against the raw body with `stripe.webhooks.constructEvent` (HTTP 400
on failure), and for `invoice.*` events look up the reverse index
`organizations/{orgId}/stripeCustomers/{customerId}` and merge-write the
invoice status document of the owning student. The raw JSON body and the
HMAC-SHA256 tag are vendor-owned; the model renders them with concrete
injective-by-construction string functions whose internals the handler
never inspects — it only compares the header against the expected tag. -/

/-- `event.data.object` of an `invoice.*` event. -/
structure InvoiceEventObject where
  id : String
  customer : String
  status : String
  total : Int
  currency : String
  hostedInvoiceUrl : Option String
  number : Option String
deriving DecidableEq

/-- A webhook event: `event.type` plus the invoice object. -/
structure StripeEvent where
  eventType : String
  invoice : InvoiceEventObject
deriving DecidableEq

/-- Model of the raw JSON body carrying the event. -/
def rawBodyOf (e : StripeEvent) : String :=
  e.eventType ++ "|" ++ e.invoice.id ++ "|" ++ e.invoice.customer ++ "|" ++ e.invoice.status

/-- Model of the provider signature over the raw body under a shared
secret (HMAC-SHA256 in reality; the handling logic only ever compares it). -/
def stripeSignature (secret rawBody : String) : String :=
  "v1=" ++ secret ++ "#" ++ rawBody

/-- The invoice status document written at
`organizations/{orgId}/students/{studentId}/billing/invoices/{invoiceId}`. -/
structure InvoiceRecord where
  lastEventAt : Nat
  status : String
  total : Int
  currency : String
  hostedInvoiceUrl : Option String
  number : Option String
deriving DecidableEq

/-- The Firestore documents the webhook route touches: the reverse index
(orgId, customerId) → studentId and the invoice status documents keyed
(orgId, studentId, invoiceId). -/
structure WebhookStore where
  customerIndex : String → String → Option StudentId
  invoiceRecords : String → String → String → Option InvoiceRecord

/-- The `invRef.set({...}, { merge: true })` write of the webhook route. -/
def mergeInvoiceRecord (store : WebhookStore) (orgId studentId invoiceId : String)
    (rec : InvoiceRecord) : WebhookStore :=
  { store with invoiceRecords := fun o s i =>
      if o = orgId ∧ s = studentId ∧ i = invoiceId then some rec
      else store.invoiceRecords o s i }

/-- `POST /stripe/webhook/:orgId`: missing secret or key → 400; bad
signature → 400 before any store access; `invoice.*` events with a reverse
index hit → merge-write of the status document; everything else → 200 with
no write. -/
def stripeWebhook (secrets keys : String → Option String)
    (store : WebhookStore) (orgId : String) (event : StripeEvent)
    (sigHeader : String) (nowMs : Nat) : Nat × WebhookStore :=
  match secrets orgId with
  | none => (400, store)
  | some whSecret =>
    match keys orgId with
    | none => (400, store)
    | some _key =>
      if sigHeader ≠ stripeSignature whSecret (rawBodyOf event) then (400, store)
      else if event.eventType.startsWith ("invoice.") then
        (match store.customerIndex orgId event.invoice.customer with
         | some studentId =>
           (200, mergeInvoiceRecord store orgId studentId event.invoice.id
             { lastEventAt := nowMs
               status := event.invoice.status
               total := event.invoice.total
               currency := event.invoice.currency
               hostedInvoiceUrl := event.invoice.hostedInvoiceUrl
               number := event.invoice.number })
         | none => (200, store))
      else (200, store)

/-- Per-org webhook secrets of the demo configuration. -/
def demoSecrets : String → Option String :=
  fun o => if o = "State-48-Dance" then some "whsec_a" else none

/-- Per-org Stripe keys of the demo configuration. -/
def demoKeys : String → Option String :=
  fun o => if o = "State-48-Dance" then some "sk_a" else none

/-- An empty webhook store. -/
def demoWebhookStore : WebhookStore :=
  { customerIndex := fun _ _ => none, invoiceRecords := fun _ _ _ => none }

/-- A concrete `invoice.paid` event. -/
def demoEvent : StripeEvent :=
  { eventType := "invoice.paid"
    invoice := { id := "in_1", customer := "cus_55", status := "paid", total := 2500
                 currency := "usd", hostedInvoiceUrl := none, number := some "A-0001" } }

/-! ## Listing endpoints

`GET /get-student-invoices/:studentId/:accountIdentifier` and
`GET /get-student-subscriptions/:studentId/:accountIdentifier` of
`part_006` (and their single-account `server.js` variants): validate the
account, 404 on a missing student, and when the student has no stored
customer id for the account answer 200 with an empty list without calling
Stripe; otherwise list from Stripe (limit 50 / limit 20, `status: "all"`). -/

/-- A Stripe invoice as returned by `invoices.list`. -/
structure StripeInvoiceRec where
  id : String
  customer : String
deriving DecidableEq

/-- A Stripe subscription as returned by `subscriptions.list`. -/
structure StripeSubRec where
  id : String
  customer : String
  subStatus : String
deriving DecidableEq

/-- `GET /get-student-invoices/:studentId/:accountIdentifier`. -/
def getStudentInvoices (σ : SysState) (accInvoices : AccountId → List StripeInvoiceRec)
    (sid : StudentId) (a : AccountId) : Nat × List StripeInvoiceRec × List ProviderCall :=
  if ¬ isKnownAccount a then (400, [], [])
  else
    match σ.students sid with
    | none => (404, [], [])
    | some st =>
      match readBillingMapping st a with
      | none => (200, [], [])
      | some cid =>
        (200, ((accInvoices a).filter (fun i => i.customer == cid)).take 50,
          [.listInvoices a cid])

/-- `GET /get-student-subscriptions/:studentId/:accountIdentifier`. -/
def getStudentSubscriptions (σ : SysState) (accSubs : AccountId → List StripeSubRec)
    (sid : StudentId) (a : AccountId) : Nat × List StripeSubRec × List ProviderCall :=
  if ¬ isKnownAccount a then (400, [], [])
  else
    match σ.students sid with
    | none => (404, [], [])
    | some st =>
      match readBillingMapping st a with
      | none => (200, [], [])
      | some cid =>
        (200, ((accSubs a).filter (fun s => s.customer == cid)).take 20,
          [.listSubscriptions a cid])

/-! ## Decimal-to-cents conversion

`amountInCents = Math.round(parseFloat(amount) * 100)` operates on IEEE-754
binary64 values. The model computes binary64 arithmetic exactly, over
rationals represented as integer numerator / positive denominator pairs
(plain `ℚ` arithmetic is irreducible to the kernel): `roundToDouble` rounds
such a rational to the nearest double (53-bit significand, ties to even;
normal range only, which covers these amounts), `fpMul` / `fpAdd` are the
correctly rounded binary64 operations, and `jsMathRound` is `Math.round`
(nearest integer, half toward positive infinity). -/

/-- An exact (unnormalized) rational: `num / den` with `den` positive. -/
structure ExactRat where
  num : Int
  den : Nat
deriving DecidableEq

/-- `a ≤ b` by cross multiplication. -/
def qle (a b : ExactRat) : Bool :=
  a.num * (b.den : Int) ≤ b.num * (a.den : Int)

/-- `a < b` by cross multiplication. -/
def qlt (a b : ExactRat) : Bool :=
  a.num * (b.den : Int) < b.num * (a.den : Int)

/-- Exact product. -/
def qmul (a b : ExactRat) : ExactRat :=
  { num := a.num * b.num, den := a.den * b.den }

/-- Exact sum. -/
def qadd (a b : ExactRat) : ExactRat :=
  { num := a.num * (b.den : Int) + b.num * (a.den : Int), den := a.den * b.den }

/-- Exact negation. -/
def qneg (a : ExactRat) : ExactRat :=
  { num := -a.num, den := a.den }

/-- Exact difference. -/
def qsub (a b : ExactRat) : ExactRat :=
  qadd a (qneg b)

/-- Floor to an integer (`Int.fdiv` is floor division). -/
def qfloor (a : ExactRat) : Int :=
  Int.fdiv a.num (a.den : Int)

/-- Bit length of a natural number (fuel-based structural recursion). -/
def bitlenAux : Nat → Nat → Nat
  | 0, _ => 0
  | fuel+1, n => if n = 0 then 0 else bitlenAux fuel (n / 2) + 1

/-- Bit length: `bitlen n` is the least `k` with `n < 2 ^ k`
(for `n < 2 ^ 320`, ample for these computations). -/
def bitlen (n : Nat) : Nat :=
  bitlenAux 320 n

/-- `2 ^ k` for a possibly negative exponent. -/
def qpow2 (k : Int) : ExactRat :=
  if 0 ≤ k then { num := 2 ^ k.toNat, den := 1 }
  else { num := 1, den := 2 ^ (-k).toNat }

/-- For positive `q`, the binade exponent `e` with `2 ^ e ≤ q < 2 ^ (e + 1)`. -/
def binExp (q : ExactRat) : Int :=
  let c : Int := (bitlen q.num.natAbs : Int) - (bitlen q.den : Int)
  if qle (qpow2 c) q then c else c - 1

/-- One half. -/
def qhalf : ExactRat :=
  { num := 1, den := 2 }

/-- Round to the nearest integer, ties to even. -/
def roundHalfEven (x : ExactRat) : Int :=
  let n := qfloor x
  let r := qsub x { num := n, den := 1 }
  if qlt r qhalf then n
  else if qlt qhalf r then n + 1
  else if n % 2 = 0 then n else n + 1

/-- Round a positive rational to the nearest binary64 value: the significand
is `q / 2 ^ (e - 52)` rounded to the nearest integer (ties to even). -/
def roundPosToDouble (q : ExactRat) : ExactRat :=
  let e := binExp q
  qmul { num := roundHalfEven (qmul q (qpow2 (52 - e))), den := 1 } (qpow2 (e - 52))

/-- Round a rational to the nearest binary64 value (normal range). -/
def roundToDouble (q : ExactRat) : ExactRat :=
  if q.num = 0 then { num := 0, den := 1 }
  else if 0 < q.num then roundPosToDouble q
  else qneg (roundPosToDouble (qneg q))

/-- Correctly rounded binary64 multiplication. -/
def fpMul (a b : ExactRat) : ExactRat :=
  roundToDouble (qmul a b)

/-- Correctly rounded binary64 addition. -/
def fpAdd (a b : ExactRat) : ExactRat :=
  roundToDouble (qadd a b)

/-- The double denoted by a decimal literal or JSON number
(`parseFloat` of the request's `amount`). -/
def jsNumberOfDecimal (q : ExactRat) : ExactRat :=
  roundToDouble q

/-- `Math.round`: nearest integer, half toward positive infinity. -/
def jsMathRound (x : ExactRat) : Int :=
  qfloor (qadd x qhalf)

/-- `const amountInCents = Math.round(parseFloat(amount) * 100)` of
`POST /create-invoice` (`server.js` line 170, `part_006` line 125), with the
multiplication performed in binary64. -/
def amountInCents (amount : ExactRat) : Int :=
  jsMathRound (fpMul amount { num := 100, den := 1 })

/-! ## Theorems -/

/-- C5: for every student whose billing map already contains an entry for the
requested account identifier, `resolveCustomer` returns that stored provider
customer id immediately, leaves the state untouched, and issues zero provider
calls. -/
theorem claim_C5_fast_path (σ : SysState) (r : ResolveRequest) (st : Student)
    (cid : CustomerId)
    (ha : isKnownAccount r.accountId = true)
    (hs : σ.students r.studentId = some st)
    (hm : readBillingMapping st r.accountId = some cid) :
    resolveCustomer σ r = (Except.ok cid, σ, ([] : List ProviderCall)) := by
  simp [resolveCustomer, ha, hs, hm]

/-- Witness for C5: the fast path on the concrete mapped student. -/
theorem claim_C5_fast_path_witness :
    isKnownAccount demoRequest.accountId = true ∧
    demoState.students demoRequest.studentId = some demoStudent ∧
    readBillingMapping demoStudent demoRequest.accountId = some "cus_55" ∧
    resolveCustomer demoState demoRequest =
      (Except.ok "cus_55", demoState, ([] : List ProviderCall)) :=
  ⟨rfl, rfl, rfl, claim_C5_fast_path demoState demoRequest demoStudent "cus_55" rfl rfl rfl⟩

/-- C9: code-bug witness. The claim says calling `upsertBillingMapping` for
account `B` on a student already mapped for account `A` writes only the `B`
entry of the per-student billing map and leaves the `A` entry (and all other
entries) unchanged. For the configured account `B = "state48arts.org"` the
update key `stripeInfo.state48arts.org` is split on dots by Firestore, so
the id lands at the nested path `["state48arts", "org"]` and the flat `B`
entry — the one every read of the code consults — is never written; the
`A = "halle_dance"` entry is indeed left untouched, and a dot-free `B`
(last conjunct) does land at its flat entry. -/
theorem claim_C9_dotted_write_misses_entry :
    readBillingMapping demoStudent ACCOUNT_ID_HALLE = some "cus_55" ∧
    readBillingMapping (upsertBillingMapping demoStudent ACCOUNT_ID_STATE48 "cus_99")
      ACCOUNT_ID_STATE48 = none ∧
    (upsertBillingMapping demoStudent ACCOUNT_ID_STATE48 "cus_99").stripeInfo
      ["state48arts", "org"] = some "cus_99" ∧
    readBillingMapping (upsertBillingMapping demoStudent ACCOUNT_ID_STATE48 "cus_99")
      ACCOUNT_ID_HALLE = some "cus_55" ∧
    readBillingMapping (upsertBillingMapping demoStudentUnmapped ACCOUNT_ID_HALLE "cus_77")
      ACCOUNT_ID_HALLE = some "cus_77" := by
  refine ⟨rfl, ?_, ?_, ?_, ?_⟩ <;> decide

/-- C4: code-bug witness. On a cache miss the resolver does query the
provider by parent email (top 10), select the first exact name match, and
otherwise create a customer with the student name, the parent email and the
student / organization metadata — but the final step of the claim, that the
resulting id is persisted into the per-account billing map of the student
before the call returns, fails for the configured account
`state48arts.org`: the id is written at the split field path
`["state48arts", "org"]` while the flat billing-map entry that the fast
path reads stays absent. -/
theorem claim_C4_resolved_id_not_persisted :
    (resolveCustomer demoStateUnmapped demoRequestS48).1 = Except.ok "cus_7" ∧
    ProviderCall.createCustomer ACCOUNT_ID_STATE48 ∈
      (resolveCustomer demoStateUnmapped demoRequestS48).2.2 ∧
    storedCustomerId ((resolveCustomer demoStateUnmapped demoRequestS48).2.1)
      "stu1" ACCOUNT_ID_STATE48 = none ∧
    storedAtPath ((resolveCustomer demoStateUnmapped demoRequestS48).2.1)
      "stu1" ["state48arts", "org"] = some "cus_7" := by
  refine ⟨rfl, ?_, ?_, ?_⟩ <;> decide

/-- C1: code-bug witness. The claim (spec invariant) says no sequence of
`resolveCustomer` / `createInvoice` / `mapCustomer` operations can leave the
system having silently created two provider customers for the same student
within the same billing account. The code violates it: starting from an
unmapped student, two sequential create-invoice requests for the same
student on account `state48arts.org`, billed through the two parents of the
student in turn, both miss the fast path — the first request persisted its
customer id at the split field path, not at the flat billing-map entry the
fast path reads — and the email-scoped customer search of the second request
does not see the customer of the first, so a second provider customer is
created for the one `(student, accountIdentifier)` pair. -/
theorem claim_C1_two_customers_created :
    createdFor
      (runOps demoStateUnmapped
        [Op.createInvoiceOp demoRequestS48 2500 "May tuition",
         Op.createInvoiceOp demoRequestS48b 2500 "May tuition"])
      "stu1" ACCOUNT_ID_STATE48 = 2 := by
  decide

/-! ### Invoice workflow: rollback, pre-finalization check, idempotency key -/

/-- C2: a request whose draft was created but that ends in an error attempts
to delete the draft and (when one was created) the line item; the cleanup
outcome never changes the reported error; and a success response means the
finalize call succeeded and its invoice is what is returned — never a
partial success. -/
theorem claim_C2_rollback_policy (b : StripeBehavior) (amountInCents : Int) :
    (∀ resp, (createInvoiceWorkflow b amountInCents).response = Except.ok resp →
      b.finalizeInvoice = Except.ok
        { id := resp.invoiceId, status := resp.invoiceStatus
          hostedInvoiceUrl := resp.invoiceUrl }) ∧
    (∀ d err, b.createDraftInvoice = Except.ok d →
      (createInvoiceWorkflow b amountInCents).response = Except.error err →
      StripeCall.delDraft d ∈ (createInvoiceWorkflow b amountInCents).calls ∧
      (∀ i, b.createInvoiceItem = Except.ok i →
        StripeCall.delItem i ∈ (createInvoiceWorkflow b amountInCents).calls) ∧
      (∀ iOk dOk,
        (createInvoiceWorkflow (setCleanupOutcome b iOk dOk) amountInCents).response =
          Except.error err)) := by
  cases hd : b.createDraftInvoice with
  | error msg =>
    refine ⟨fun resp h => ?_, fun d err hd' h => absurd hd' (by simp)⟩
    simp [createInvoiceWorkflow, hd] at h
  | ok draftId =>
    cases hi : b.createInvoiceItem with
    | error msg =>
      refine ⟨fun resp h => ?_, fun d err hd' h => ?_⟩
      · simp [createInvoiceWorkflow, hd, hi] at h
      · obtain rfl : draftId = d := Except.ok.inj hd'
        simp [createInvoiceWorkflow, hd, hi] at h
        refine ⟨by simp [createInvoiceWorkflow, hd, hi, cleanupCalls],
          fun i hi' => absurd hi' (by simp), fun iOk dOk => ?_⟩
        simp [createInvoiceWorkflow, setCleanupOutcome, hd, hi, h]
    | ok itemId =>
      cases hr : b.retrieveInvoice with
      | error msg =>
        refine ⟨fun resp h => ?_, fun d err hd' h => ?_⟩
        · simp [createInvoiceWorkflow, hd, hi, hr] at h
        · obtain rfl : draftId = d := Except.ok.inj hd'
          simp [createInvoiceWorkflow, hd, hi, hr] at h
          refine ⟨by simp [createInvoiceWorkflow, hd, hi, hr, cleanupCalls],
            fun i hi' => ?_, fun iOk dOk => ?_⟩
          · obtain rfl : itemId = i := Except.ok.inj hi'
            simp [createInvoiceWorkflow, hd, hi, hr, cleanupCalls]
          · simp [createInvoiceWorkflow, setCleanupOutcome, hd, hi, hr, h]
      | ok ret =>
        by_cases hz : ret.total = 0 ∧ amountInCents > 0
        · refine ⟨fun resp h => ?_, fun d err hd' h => ?_⟩
          · simp [createInvoiceWorkflow, hd, hi, hr, hz] at h
          · obtain rfl : draftId = d := Except.ok.inj hd'
            simp [createInvoiceWorkflow, hd, hi, hr, hz] at h
            refine ⟨by simp [createInvoiceWorkflow, hd, hi, hr, hz, cleanupCalls],
              fun i hi' => ?_, fun iOk dOk => ?_⟩
            · obtain rfl : itemId = i := Except.ok.inj hi'
              simp [createInvoiceWorkflow, hd, hi, hr, hz, cleanupCalls]
            · simp [createInvoiceWorkflow, setCleanupOutcome, hd, hi, hr, hz, h]
        · cases hf : b.finalizeInvoice with
          | error msg =>
            refine ⟨fun resp h => ?_, fun d err hd' h => ?_⟩
            · simp [createInvoiceWorkflow, hd, hi, hr, hz, hf] at h
            · obtain rfl : draftId = d := Except.ok.inj hd'
              simp [createInvoiceWorkflow, hd, hi, hr, hz, hf] at h
              refine ⟨by simp [createInvoiceWorkflow, hd, hi, hr, hz, hf, cleanupCalls],
                fun i hi' => ?_, fun iOk dOk => ?_⟩
              · obtain rfl : itemId = i := Except.ok.inj hi'
                simp [createInvoiceWorkflow, hd, hi, hr, hz, hf, cleanupCalls]
              · simp [createInvoiceWorkflow, setCleanupOutcome, hd, hi, hr, hz, hf, h]
          | ok fin =>
            refine ⟨fun resp h => ?_, fun d err hd' h => ?_⟩
            · simp only [createInvoiceWorkflow, hd, hi, hr, if_neg hz, hf,
                Except.ok.injEq] at h
              subst h
              rfl
            · simp [createInvoiceWorkflow, hd, hi, hr, hz, hf] at h

/-- Witness for C2: a request whose finalize call fails deletes both the
item and the draft, and the outcome of those deletes does not change the
reported error. -/
theorem claim_C2_rollback_policy_witness :
    demoBehaviorFinalizeFail.createDraftInvoice = Except.ok "in_1" ∧
    (createInvoiceWorkflow demoBehaviorFinalizeFail 2500).response =
      Except.error (WorkflowErr.finalizeFailed "finalize boom") ∧
    StripeCall.delDraft "in_1" ∈ (createInvoiceWorkflow demoBehaviorFinalizeFail 2500).calls ∧
    StripeCall.delItem "ii_1" ∈ (createInvoiceWorkflow demoBehaviorFinalizeFail 2500).calls ∧
    (createInvoiceWorkflow (setCleanupOutcome demoBehaviorFinalizeFail false false) 2500).response =
      Except.error (WorkflowErr.finalizeFailed "finalize boom") := by
  have h := (claim_C2_rollback_policy demoBehaviorFinalizeFail 2500).2
    "in_1" (WorkflowErr.finalizeFailed "finalize boom") rfl rfl
  exact ⟨rfl, rfl, h.1, h.2.1 "ii_1" rfl, h.2.2 false false⟩

/-- C7 counterexample: the very same draft invoice, finalized in two runs
one millisecond apart, is given two different idempotency tokens — the
token is not stable across retries of the same draft, because it embeds
`Date.now()` at millisecond precision. -/
theorem claim_C7_counterexample :
    StripeCall.finalize "in_1" (idempotencyKey "in_1" 1000) ∈
      (createInvoiceWorkflow demoBehaviorOk 2500).calls ∧
    StripeCall.finalize "in_1" (idempotencyKey "in_1" 1001) ∈
      (createInvoiceWorkflow demoBehaviorRetry 2500).calls ∧
    idempotencyKey "in_1" 1000 ≠ idempotencyKey "in_1" 1001 := by
  decide

/-- The numeric value of a decimal digit character. -/
lemma digitChar_val (d : Nat) (h : d < 10) : (Nat.digitChar d).toNat - 48 = d := by
  interval_cases d <;> decide

/-- `digitsVal` inverts `Nat.toDigitsCore` given enough fuel. -/
lemma digitsVal_toDigitsCore :
    ∀ (fuel n : Nat) (acc : List Char), n < fuel →
      digitsVal (Nat.toDigitsCore 10 fuel n acc) =
        List.foldl (fun a c => 10 * a + (c.toNat - 48)) n acc := by
  intro fuel
  induction fuel with
  | zero => intro n acc h; omega
  | succ fuel ih =>
    intro n acc h
    by_cases h10 : n / 10 = 0
    · simp only [Nat.toDigitsCore, h10, if_pos]
      unfold digitsVal
      rw [List.foldl_cons]
      have hv : 10 * 0 + ((Nat.digitChar (n % 10)).toNat - 48) = n := by
        rw [digitChar_val (n % 10) (Nat.mod_lt _ (by norm_num))]
        omega
      rw [hv]
    · simp only [Nat.toDigitsCore, h10, ite_false]
      rw [ih (n / 10) (Nat.digitChar (n % 10) :: acc) (by omega)]
      rw [List.foldl_cons]
      have hv : 10 * (n / 10) + ((Nat.digitChar (n % 10)).toNat - 48) = n := by
        rw [digitChar_val (n % 10) (Nat.mod_lt _ (by norm_num))]
        omega
      rw [hv]

/-- `digitsVal` inverts `Nat.toDigits`. -/
lemma digitsVal_toDigits (n : Nat) : digitsVal (Nat.toDigits 10 n) = n := by
  have h := digitsVal_toDigitsCore (n + 1) n [] (Nat.lt_succ_self n)
  simpa [Nat.toDigits] using h

/-- Two distinct naturals have distinct decimal renderings. -/
lemma natRepr_injective {m n : Nat} (h : Nat.repr m = Nat.repr n) : m = n := by
  have hdata : Nat.toDigits 10 m = Nat.toDigits 10 n := congrArg String.data h
  have h1 := digitsVal_toDigits m
  rw [hdata, digitsVal_toDigits n] at h1
  exact h1.symm

/-- C7 (amended): the idempotency token is a function of the draft invoice
id and the exact `Date.now()` millisecond timestamp of the attempt, and for
a fixed draft two attempts carry the same token exactly when their
millisecond timestamps coincide — a retried finalize in any later
millisecond carries a fresh token, so the token does not by itself prevent
double-finalization of the same draft across retries. -/
theorem claim_C7_amended_key_same_iff_same_ms (d : String) (t1 t2 : Nat) :
    idempotencyKey d t1 = idempotencyKey d t2 ↔ t1 = t2 := by
  constructor
  · intro h
    unfold idempotencyKey at h
    have hdata := congrArg String.data h
    simp only [String.data_append, List.append_assoc, List.append_cancel_left_eq] at hdata
    exact natRepr_injective (String.ext hdata)
  · intro h
    rw [h]

/-- C6: an inbound webhook whose signature header is not the provider
signature of the raw body under the shared secret of the claimed organization is
answered with HTTP 400 and causes no store mutation. -/
theorem claim_C6_webhook_rejects_bad_signature (secrets keys : String → Option String)
    (store : WebhookStore) (orgId : String) (event : StripeEvent)
    (sigHeader : String) (nowMs : Nat) (secret : String)
    (hsec : secrets orgId = some secret)
    (hbad : sigHeader ≠ stripeSignature secret (rawBodyOf event)) :
    (stripeWebhook secrets keys store orgId event sigHeader nowMs).1 = 400 ∧
    (stripeWebhook secrets keys store orgId event sigHeader nowMs).2 = store := by
  unfold stripeWebhook
  rw [hsec]
  cases keys orgId with
  | none => exact ⟨rfl, rfl⟩
  | some k => simp [hbad]

/-- Witness for C6: a tampered signature on a concrete `invoice.paid` event
is rejected with 400 and the store value is returned unchanged. -/
theorem claim_C6_webhook_rejects_bad_signature_witness :
    demoSecrets "State-48-Dance" = some "whsec_a" ∧
    "v1=tampered" ≠ stripeSignature "whsec_a" (rawBodyOf demoEvent) ∧
    (stripeWebhook demoSecrets demoKeys demoWebhookStore "State-48-Dance" demoEvent
      "v1=tampered" 1000).1 = 400 ∧
    (stripeWebhook demoSecrets demoKeys demoWebhookStore "State-48-Dance" demoEvent
      "v1=tampered" 1000).2 = demoWebhookStore := by
  have h := claim_C6_webhook_rejects_bad_signature demoSecrets demoKeys demoWebhookStore
    "State-48-Dance" demoEvent "v1=tampered" 1000 "whsec_a" rfl (by decide)
  exact ⟨rfl, by decide, h.1, h.2⟩

/-- C10: for a request naming an existing student with no stored customer id
for the (valid) requested account, both listing endpoints answer HTTP 200
with an empty list and issue no provider call. -/
theorem claim_C10_unmapped_student_empty_lists (σ : SysState)
    (accInvoices : AccountId → List StripeInvoiceRec)
    (accSubs : AccountId → List StripeSubRec)
    (sid : StudentId) (a : AccountId) (st : Student)
    (ha : isKnownAccount a = true)
    (hs : σ.students sid = some st)
    (hm : readBillingMapping st a = none) :
    getStudentInvoices σ accInvoices sid a =
      (200, ([] : List StripeInvoiceRec), ([] : List ProviderCall)) ∧
    getStudentSubscriptions σ accSubs sid a =
      (200, ([] : List StripeSubRec), ([] : List ProviderCall)) := by
  constructor
  · simp [getStudentInvoices, ha, hs, hm]
  · simp [getStudentSubscriptions, ha, hs, hm]

/-- Witness for C10: the concrete unmapped student on `halle_dance`. -/
theorem claim_C10_unmapped_student_empty_lists_witness :
    isKnownAccount ACCOUNT_ID_HALLE = true ∧
    demoStateUnmapped.students "stu1" = some demoStudentUnmapped ∧
    readBillingMapping demoStudentUnmapped ACCOUNT_ID_HALLE = none ∧
    getStudentInvoices demoStateUnmapped (fun _ => []) "stu1" ACCOUNT_ID_HALLE =
      (200, ([] : List StripeInvoiceRec), ([] : List ProviderCall)) ∧
    getStudentSubscriptions demoStateUnmapped (fun _ => []) "stu1" ACCOUNT_ID_HALLE =
      (200, ([] : List StripeSubRec), ([] : List ProviderCall)) := by
  have h := claim_C10_unmapped_student_empty_lists demoStateUnmapped (fun _ => [])
    (fun _ => []) "stu1" ACCOUNT_ID_HALLE demoStudentUnmapped rfl rfl rfl
  exact ⟨rfl, rfl, rfl, h.1, h.2⟩

set_option maxRecDepth 40000 in
/-- C8: the decimal-to-minor-units conversion, computed in exact binary64
arithmetic, is exact on the cent-denominated inputs named by the spec: `19.99` converts
to exactly `1999` cents, and the classic `0.1 + 0.2` double sum converts to
exactly `30` cents with no off-by-one-cent error; the single rounding is the
one `Math.round` at this boundary. -/
theorem claim_C8_rounding_exact :
    amountInCents (jsNumberOfDecimal { num := 1999, den := 100 }) = 1999 ∧
    amountInCents (fpAdd (jsNumberOfDecimal { num := 1, den := 10 })
      (jsNumberOfDecimal { num := 2, den := 10 })) = 30 := by
  constructor
  · decide
  · decide

end ASM
